import Mathlib

/-
Verification of the genetic model-search core in
`acme/model_generators/create_lumped_CMF_model.py`.

The Python source is embedded shallowly: genotypes are `List String`,
the probabilistic decisions of the operators are passed in explicitly
(a `List Bool` of outcomes of `random.random() < threshold`, explicit
repetition counts, pick streams and shuffle oracles), and loops whose
termination depends on the random stream are given fuel and return
`Option`, with `none` standing for a run on which the Python loop would
not have terminated with the supplied outcomes.
-/

namespace LumpedCMFGenerator

/-- Class attribute `storages` (source line 28). -/
def storages : List String :=
  ["snow", "canopy", "second_layer", "third_layer", "river"]

/-- Class attribute `connections` (source lines 29-31). -/
def connections : List String :=
  ["tr_first_out", "tr_first_river", "tr_first_third",
   "tr_second_third", "tr_second_river_or_out",
   "tr_third_river_or_out", "river_out"]

/-- Class attribute `snow_params` (source line 32). -/
def snow_params : List String := ["meltrate", "snow_melt_temp"]

/-- Class attribute `canopy_params` (source line 33). -/
def canopy_params : List String := ["lai", "canopy_closure"]

/-- Class attribute `first_layer_params` (source lines 36-38). -/
def first_layer_params : List String :=
  ["beta_first_out", "beta_first_river", "beta_first_second",
   "v0_first_out", "v0_first_river", "v0_first_second"]

/-- Class attribute `second_layer_params` (source line 39). -/
def second_layer_params : List String :=
  ["beta_second_river", "beta_second_third"]

/-- Class attribute `third_layer_params` (source line 40). -/
def third_layer_params : List String := ["beta_third_river"]

/-- Class attribute `river_params` (source line 41). -/
def river_params : List String := ["beta_river_out"]

/-- Class attribute `params` (source lines 42-46; `et_params` is commented
out in the source and therefore absent). -/
def params : List String :=
  snow_params ++ canopy_params ++ first_layer_params ++
    second_layer_params ++ third_layer_params ++ river_params

/-- Class attribute `gene_set` (source line 47): the declared gene universe. -/
def gene_set : List String := storages ++ connections ++ params

end LumpedCMFGenerator

/-- Substring test on character lists: `containsSub needle hay` is true iff
`needle` occurs contiguously in `hay`.  Used to embed Python's
`"out" in connection` test. -/
def containsSub : List Char → List Char → Bool
  | needle, [] => needle.isEmpty
  | needle, c :: rest => needle.isPrefixOf (c :: rest) || containsSub needle rest

/-- Python's `"out" in s` substring test on a string. -/
def containsOut (s : String) : Bool := containsSub "out".data s.data

/-- The list `outgoing` built in `check_for_connection` (source lines
390-393): all declared connections whose name contains `"out"`. -/
def outgoing : List String :=
  LumpedCMFGenerator.connections.filter (fun c => containsOut c)

/-- Embedding of `check_for_connection` (source lines 382-399): if none of
the `"out"`-named declared connections is in the genotype, append
`"tr_first_out"`; the in-place append is modelled by returning the new
list. -/
def check_for_connection (genes : List String) : List String :=
  if outgoing.any (fun connection => genes.contains connection) then genes
  else genes ++ ["tr_first_out"]

/-- Embedding of `crossover` (source lines 263-283).  The two random split
points `random.randint(0, len(parent))` are passed explicitly.  Python's
`list(set(child_genes))` removes duplicates in unspecified order; it is
modelled by `List.dedup`, which is adequate here because every property
proved about the result is order-independent. -/
def crossover (first_parent second_parent : List String) (index_first_parent index_second_parent : Nat) : List String :=
  let part_first_parent := first_parent.take index_first_parent
  let part_second_parent := second_parent.drop index_second_parent
  let child_genes := part_first_parent ++ part_second_parent
  child_genes.dedup

/-- Python's `set(a) == set(b)` on two lists of gene tokens: mutual
membership. -/
def sameSet (a b : List String) : Bool :=
  a.all (fun x => b.contains x) && b.all (fun x => a.contains x)

/-- Helper for `splitOnSpace`: walks the characters, `cur` holding the
(reversed) characters of the token being read. -/
def split_aux : List Char → List Char → List String
  | [], [] => []
  | [], cur => [String.mk cur.reverse]
  | c :: rest, cur =>
    if c = ' ' then
      match cur with
      | [] => split_aux rest []
      | _ => String.mk cur.reverse :: split_aux rest []
    else split_aux rest (c :: cur)

/-- Python's `s.split()` as used on cache keys (source line 169): splits on
runs of spaces, dropping empty tokens.  Cache keys are built by
`" ".join(genes)`, so spaces are the only whitespace that occurs. -/
def splitOnSpace (s : String) : List String := split_aux s.data []

/-- Python's `" ".join(genes)` (source line 190). -/
def joinSpace : List String → String
  | [] => ""
  | [g] => g
  | g :: rest => g ++ " " ++ joinSpace rest

/-- Result of one `get_fitness` call: the returned fitness, the state of
the class-wide `models_so_far` dict afterwards, and how many times the
external simulation/calibration collaborators were invoked during the
call. -/
structure FitnessResult where
  fitness : Int
  cache : List (String × Int)
  calls : Nat
deriving DecidableEq

/-- The cache scan of `get_fitness` (source lines 167-172): walk the keys
of `models_so_far` in insertion order, split each key back into genes, and
return the stored value of the first key whose gene set equals that of
`genes`. -/
def lookup_cache : List (String × Int) → List String → Option Int
  | [], _ => none
  | (old_model, best) :: rest, genes =>
    if sameSet (splitOnSpace old_model) genes then some best
    else lookup_cache rest genes

/-- Python dict insertion `models_so_far[key] = value`: overwrite an
existing binding of exactly this key, else append at the end (insertion
order). -/
def dict_insert : List (String × Int) → String → Int → List (String × Int)
  | [], key, value => [(key, value)]
  | (k, v) :: rest, key, value =>
    if k = key then (key, value) :: rest
    else (k, v) :: dict_insert rest key value

/-- Embedding of `get_fitness` (source lines 154-194).  The external
collaborators (`template.LumpedModelCMF`, the sampler, and
`sampler.bestlike`) are abstracted into the oracle `evalModel`; `calls`
counts how many times they are invoked.  Fitness values are modelled as
integers: no claim depends on their arithmetic. -/
def get_fitness (genes : List String) (models_so_far : List (String × Int)) (evalModel : List String → Int) : FitnessResult :=
  match lookup_cache models_so_far genes with
  | some best => ⟨best, models_so_far, 0⟩
  | none =>
    let best_like := evalModel genes
    ⟨best_like, dict_insert models_so_far (joinSpace genes) best_like, 1⟩

/-- The three mutation kinds chosen by `random.choice(["add", "del",
"swap"])` (source line 218). -/
inductive MutationType where
  | add
  | del
  | swap
deriving DecidableEq

/-- The inner `while True` loop of the add branch (source lines 228-233):
draw picks (`random.choice(gene_set)`) until one is not yet in the
genotype, then append it.  The pick stream doubles as fuel: an exhausted
stream models a run of the Python loop that never finds a fresh gene. -/
def add_inner (genes : List String) : List String → Option (List String × List String)
  | [] => none
  | new_gene :: picks =>
    if genes.contains new_gene then add_inner genes picks
    else some (genes ++ [new_gene], picks)

/-- The add branch of `mutate` (source lines 220-233): per repetition, if
the genotype already holds the whole universe, shuffle, pop the last
element and stop; otherwise append one fresh sampled gene. -/
def mutate_add (genes gene_set : List String) (reps : Nat) (shuffle : List String → List String) (picks : List String) : Option (List String) :=
  match reps with
  | 0 => some genes
  | reps + 1 =>
    if sameSet genes gene_set then some ((shuffle genes).dropLast)
    else
      match add_inner genes picks with
      | none => none
      | some (genes, picks) => mutate_add genes gene_set reps shuffle picks

/-- The del branch of `mutate` (source lines 235-244): per repetition, if
the genotype is empty, append one sampled gene (`pick`) and stop;
otherwise shuffle and pop the last element.  `shuffles` is the
call-indexed shuffle oracle, `idx` the index of the next call. -/
def mutate_del (genes gene_set : List String) (reps : Nat) (shuffles : Nat → List String → List String) (idx : Nat) (pick : String) : List String :=
  match reps with
  | 0 => genes
  | reps + 1 =>
    if genes.length = 0 then genes ++ [pick]
    else mutate_del ((shuffles idx genes).dropLast) gene_set reps shuffles (idx + 1) pick

/-- One repetition of the swap branch of `mutate` (source lines 247-259).
The source copies the genotype (`initial_genes = genes[:]`), writes the
replacement gene into the copy, and never writes anything back into
`genes`; the function therefore returns `genes` unchanged, with the
updated copy bound and discarded exactly as in the source. -/
def mutate_swap_rep (genes gene_set : List String) (index : Nat) (new_gene alternate : String) : List String :=
  let initial_genes :=
    genes.set index (if new_gene = genes.getD index "" then alternate else new_gene)
  let _ := initial_genes
  genes

/-- The swap branch of `mutate`: the per-repetition random data
(`random.randrange` index and the two `random.sample` genes) comes from
the call-indexed oracle `swap_rand`. -/
def mutate_swap (genes gene_set : List String) (reps : Nat) (swap_rand : Nat → Nat × String × String) : List String :=
  match reps with
  | 0 => genes
  | reps + 1 =>
    mutate_swap
      (mutate_swap_rep genes gene_set (swap_rand reps).1 (swap_rand reps).2.1 (swap_rand reps).2.2)
      gene_set reps swap_rand

/-- All random data consumed by one `mutate` call (source lines 210-260):
the chosen mutation kind, the repetition count `random.randint(1, 3)`,
and the oracles for the three branches. -/
structure MutateRand where
  mutation_type : MutationType
  reps : Nat
  shuffle : List String → List String
  shuffles : Nat → List String → List String
  add_picks : List String
  del_pick : String
  swap_rand : Nat → Nat × String × String

/-- Embedding of `mutate` (source lines 210-260): dispatch on the chosen
mutation kind.  The in-place update of `genes` is modelled by returning
the final state of the list. -/
def mutate (genes gene_set : List String) (r : MutateRand) : Option (List String) :=
  match r.mutation_type with
  | .add => mutate_add genes gene_set r.reps r.shuffle r.add_picks
  | .del => some (mutate_del genes gene_set r.reps r.shuffles 0 r.del_pick)
  | .swap => some (mutate_swap genes gene_set r.reps r.swap_rand)

/-- The second argument of the `mutate(...)` call inside `solve`'s helper
`fn_mutate` can be one of the two values in scope there: the class gene
universe, or the fitness helper `fn_get_fitness`. -/
inductive MutateSecondArg where
  | gene_set_arg (gs : List String)
  | fitness_helper_arg
deriving DecidableEq

/-- Embedding of `fn_mutate` (source lines 131-132): the source reads
`mutate(genes, fn_get_fitness)`, i.e. it passes the fitness helper (not
the gene universe) in `mutate`'s `gene_set` position. -/
def fn_mutate_second_arg : MutateSecondArg := MutateSecondArg.fitness_helper_arg

/-- The guard of the busy-wait loop at the end of `solve` (source line
147): `while not self.optimal_fitness > best.fitness: pass`.  The loop
keeps spinning while this guard is true. -/
def solve_wait_guard (optimal_fitness best_fitness : Int) : Bool :=
  !(decide (optimal_fitness > best_fitness))

/-- The guard of the second-layer connection retry loop in `create`
(source line 349): `while "tr_second_third" not in genes or
"tr_second_river" not in genes`. -/
def second_layer_loop_guard (genes : List String) : Bool :=
  !(genes.contains "tr_second_third") || !(genes.contains "tr_second_river")

/-- One `random.random() < threshold` outcome, consumed from the explicit
outcome stream. -/
def roll : List Bool → Option (Bool × List Bool)
  | [] => none
  | b :: rolls => some (b, rolls)

/-- A trial in `create` with no dependent parameter gene: roll once and
append `g` if the roll was below the threshold. -/
def roll_append (genes : List String) (g : String) (rolls : List Bool) : Option (List String × List Bool) :=
  match rolls with
  | [] => none
  | b :: rolls => some (if b then genes ++ [g] else genes, rolls)

/-- A trial in `create` with one dependent follow-up gene: roll once, and
only if `g` was appended roll again for `p` (the source only draws the
inner random numbers inside the outer `if`). -/
def block1 (genes : List String) (g p : String) (rolls : List Bool) : Option (List String × List Bool) :=
  match rolls with
  | [] => none
  | b :: rolls =>
    if b then roll_append (genes ++ [g]) p rolls
    else some (genes, rolls)

/-- A trial in `create` with two dependent parameter genes, each rolled
for only when `g` itself was appended. -/
def block2 (genes : List String) (g p1 p2 : String) (rolls : List Bool) : Option (List String × List Bool) :=
  match rolls with
  | [] => none
  | b :: rolls =>
    if b then
      match roll_append (genes ++ [g]) p1 rolls with
      | none => none
      | some (genes, rolls) => roll_append genes p2 rolls
    else some (genes, rolls)

/-- The second-layer connection retry loop of `create` (source lines
347-357), with explicit fuel: while the guard holds, run one trial for
`tr_second_third` (plus its parameter) and one for `tr_second_river`
(plus its parameter), then loop.  Exhausted fuel models a run on which
the Python loop would still be spinning with the supplied outcomes. -/
def second_layer_trials : Nat → List String → List Bool → Option (List String × List Bool)
  | 0, genes, rolls =>
    if second_layer_loop_guard genes then none else some (genes, rolls)
  | fuel + 1, genes, rolls =>
    if second_layer_loop_guard genes then
      (block1 genes "tr_second_third" "beta_second_third" rolls).bind fun (genes, rolls) =>
      (block1 genes "tr_second_river" "beta_second_river" rolls).bind fun (genes, rolls) =>
      second_layer_trials fuel genes rolls
    else some (genes, rolls)

/-- Embedding of `create` (source lines 286-370), with the stream of
`random.random() < threshold` outcomes passed explicitly.  The stages
follow the source order: snow (+2 params), canopy (+2 params),
second_layer (+third_layer), river, the three first-layer connection
trials (+2 params each), the second-layer retry loop, the unconditional
third-layer connection, and the river-outlet parameter. -/
def create (rolls : List Bool) : Option (List String) :=
  (block2 [] "snow" "meltrate" "snow_melt_temp" rolls).bind fun (genes, rolls) =>
  (block2 genes "canopy" "canopy_closure" "lai" rolls).bind fun (genes, rolls) =>
  (block1 genes "second_layer" "third_layer" rolls).bind fun (genes, rolls) =>
  (roll_append genes "river" rolls).bind fun (genes, rolls) =>
  (block2 genes "tr_first_second" "beta_first_second" "v0_first_second" rolls).bind fun (genes, rolls) =>
  (block2 genes "tr_first_river" "beta_first_river" "v0_first_river" rolls).bind fun (genes, rolls) =>
  (block2 genes "tr_first_out" "beta_first_out" "v0_first_out" rolls).bind fun (genes, rolls) =>
  (if genes.contains "second_layer" then second_layer_trials rolls.length genes rolls
   else some (genes, rolls)).bind fun (genes, rolls) =>
  (if genes.contains "third_layer" then roll_append (genes ++ ["tr_third_river"]) "beta_third_river" rolls
   else some (genes, rolls)).bind fun (genes, rolls) =>
  (if genes.contains "river" then roll_append genes "beta_river_out" rolls
   else some (genes, rolls)).bind fun (genes, _) =>
  some genes

/-- Outgoing-connection genes associated with each storage, read off the
naming convention of the declared connection catalogue (and of the names
`create` itself appends): the second layer can drain via its to-third or
to-river connections, the third layer via its to-river connection, the
river via `river_out`.  Snow, canopy and the implicit first layer drain
implicitly and have no connection genes of their own. -/
def storage_out_connections : String → List String
  | "second_layer" => ["tr_second_third", "tr_second_river", "tr_second_river_or_out"]
  | "third_layer" => ["tr_third_river", "tr_third_river_or_out"]
  | "river" => ["river_out"]
  | _ => []

/-- Outcome stream under which `create` returns `["tr_first_second"]`:
all trials fail except the first-to-second connection trial. -/
def rollsA : List Bool :=
  [false, false, false, false, true, false, false, false, false]

/-- Outcome stream under which `create` picks `second_layer` and the retry
loop then appends `tr_second_third` in two successive iterations. -/
def rollsB : List Bool :=
  [false, false, true, false, false, false, false, false,
   true, false, false,
   true, false, true, false]

/-- Outcome stream under which `create` returns `["river"]`: only the
river-storage trial succeeds. -/
def rollsC : List Bool :=
  [false, false, false, true, false, false, false, false]

/-- A genotype whose gene set equals another's is mutually included in
it. -/
lemma sameSet_subsets {a b : List String} (h : sameSet a b = true) :
    (∀ x ∈ a, x ∈ b) ∧ (∀ x ∈ b, x ∈ a) := by
  rw [sameSet, Bool.and_eq_true, List.all_eq_true, List.all_eq_true] at h
  exact ⟨fun x hx => List.elem_iff.mp (h.1 x hx),
         fun x hx => List.elem_iff.mp (h.2 x hx)⟩

/-- A successful `roll_append` keeps every gene and adds at most `g`. -/
lemma roll_append_mem {genes genes' : List String} {g : String} {rolls rolls' : List Bool}
    (h : roll_append genes g rolls = some (genes', rolls')) :
    (∀ x ∈ genes, x ∈ genes') ∧ (∀ x ∈ genes', x ∈ genes ∨ x = g) := by
  cases rolls with
  | nil => simp [roll_append] at h
  | cons b rolls =>
    simp only [roll_append, Option.some.injEq, Prod.mk.injEq] at h
    obtain ⟨h1, _⟩ := h
    cases b with
    | false =>
      simp only [if_neg Bool.false_ne_true] at h1
      subst h1
      exact ⟨fun x hx => hx, fun x hx => Or.inl hx⟩
    | true =>
      simp only [if_pos rfl] at h1
      subst h1
      constructor
      · intro x hx; exact List.mem_append_left _ hx
      · intro x hx
        rcases List.mem_append.mp hx with hx | hx
        · exact Or.inl hx
        · exact Or.inr (List.mem_singleton.mp hx)

/-- A successful `block1` keeps every gene and adds at most `g` and `p`. -/
lemma block1_mem {genes genes' : List String} {g p : String} {rolls rolls' : List Bool}
    (h : block1 genes g p rolls = some (genes', rolls')) :
    (∀ x ∈ genes, x ∈ genes') ∧ (∀ x ∈ genes', x ∈ genes ∨ x = g ∨ x = p) := by
  cases rolls with
  | nil => simp [block1] at h
  | cons b rolls =>
    simp only [block1] at h
    cases b with
    | false =>
      simp only [if_neg Bool.false_ne_true, Option.some.injEq, Prod.mk.injEq] at h
      obtain ⟨h1, _⟩ := h
      subst h1
      exact ⟨fun x hx => hx, fun x hx => Or.inl hx⟩
    | true =>
      simp only [if_pos rfl] at h
      obtain ⟨hmono, hnew⟩ := roll_append_mem h
      constructor
      · intro x hx; exact hmono x (List.mem_append_left _ hx)
      · intro x hx
        rcases hnew x hx with hx | hx
        · rcases List.mem_append.mp hx with hx | hx
          · exact Or.inl hx
          · exact Or.inr (Or.inl (List.mem_singleton.mp hx))
        · exact Or.inr (Or.inr hx)

/-- A successful `block2` keeps every gene and adds at most `g`, `p1`
and `p2`. -/
lemma block2_mem {genes genes' : List String} {g p1 p2 : String} {rolls rolls' : List Bool}
    (h : block2 genes g p1 p2 rolls = some (genes', rolls')) :
    (∀ x ∈ genes, x ∈ genes') ∧ (∀ x ∈ genes', x ∈ genes ∨ x = g ∨ x = p1 ∨ x = p2) := by
  cases rolls with
  | nil => simp [block2] at h
  | cons b rolls =>
    simp only [block2] at h
    cases b with
    | false =>
      simp only [if_neg Bool.false_ne_true, Option.some.injEq, Prod.mk.injEq] at h
      obtain ⟨h1, _⟩ := h
      subst h1
      exact ⟨fun x hx => hx, fun x hx => Or.inl hx⟩
    | true =>
      simp only [if_pos rfl] at h
      cases h1 : roll_append (genes ++ [g]) p1 rolls with
      | none => rw [h1] at h; exact Option.noConfusion h
      | some st =>
        obtain ⟨genes1, rolls1⟩ := st
        rw [h1] at h
        obtain ⟨hmono1, hnew1⟩ := roll_append_mem h1
        obtain ⟨hmono2, hnew2⟩ := roll_append_mem h
        constructor
        · intro x hx
          exact hmono2 x (hmono1 x (List.mem_append_left _ hx))
        · intro x hx
          rcases hnew2 x hx with hx | hx
          · rcases hnew1 x hx with hx | hx
            · rcases List.mem_append.mp hx with hx | hx
              · exact Or.inl hx
              · exact Or.inr (Or.inl (List.mem_singleton.mp hx))
            · exact Or.inr (Or.inr (Or.inl hx))
          · exact Or.inr (Or.inr (Or.inr hx))

/-- The retry-loop guard is false exactly when both second-layer
connection genes are already present. -/
lemma second_layer_loop_guard_eq_false {genes : List String} :
    second_layer_loop_guard genes = false ↔
      ("tr_second_third" ∈ genes ∧ "tr_second_river" ∈ genes) := by
  simp [second_layer_loop_guard, List.elem_iff]

/-- When the retry loop of `create` exits normally, both second-layer
connection genes are present, and every gene present on entry is still
present. -/
lemma second_layer_trials_post :
    ∀ (fuel : Nat) (genes : List String) (rolls : List Bool) (genes' : List String) (rolls' : List Bool),
      second_layer_trials fuel genes rolls = some (genes', rolls') →
      "tr_second_third" ∈ genes' ∧ "tr_second_river" ∈ genes' ∧ (∀ x ∈ genes, x ∈ genes') := by
  intro fuel
  induction fuel with
  | zero =>
    intro genes rolls genes' rolls' h
    by_cases hg : second_layer_loop_guard genes = true
    · simp only [second_layer_trials, if_pos hg] at h
      exact Option.noConfusion h
    · simp only [second_layer_trials, if_neg hg, Option.some.injEq, Prod.mk.injEq] at h
      obtain ⟨h1, _⟩ := h
      subst h1
      have hg' : second_layer_loop_guard genes = false := by
        exact Bool.not_eq_true _ ▸ hg
      obtain ⟨m1, m2⟩ := second_layer_loop_guard_eq_false.mp hg'
      exact ⟨m1, m2, fun x hx => hx⟩
  | succ fuel ih =>
    intro genes rolls genes' rolls' h
    by_cases hg : second_layer_loop_guard genes = true
    · simp only [second_layer_trials, if_pos hg, Option.bind_eq_some, Prod.exists] at h
      obtain ⟨g1, r1, h1, g2, r2, h2, h⟩ := h
      obtain ⟨m3, m4, mono⟩ := ih g2 r2 genes' rolls' h
      obtain ⟨mono1, _⟩ := block1_mem h1
      obtain ⟨mono2, _⟩ := block1_mem h2
      exact ⟨m3, m4, fun x hx => mono x (mono2 x (mono1 x hx))⟩
    · simp only [second_layer_trials, if_neg hg, Option.some.injEq, Prod.mk.injEq] at h
      obtain ⟨h1, _⟩ := h
      subst h1
      have hg' : second_layer_loop_guard genes = false := by
        exact Bool.not_eq_true _ ▸ hg
      obtain ⟨m1, m2⟩ := second_layer_loop_guard_eq_false.mp hg'
      exact ⟨m1, m2, fun x hx => hx⟩

/-- Whatever the repair decides, every gene of the input genotype is still
in the repaired genotype (`check_for_connection` only ever appends). -/
lemma subset_check_for_connection (genes : List String) :
    ∀ x ∈ genes, x ∈ check_for_connection genes := by
  intro x hx
  unfold check_for_connection
  by_cases hc : (outgoing.any fun connection => genes.contains connection) = true
  · rw [if_pos hc]; exact hx
  · rw [if_neg hc]; exact List.mem_append_left _ hx

/-- The repair condition of `check_for_connection`, restated over the
declared connection catalogue: some declared connection whose name
contains the outlet marker is in the genotype. -/
lemma outlet_cond_iff {genes : List String} :
    (outgoing.any fun connection => genes.contains connection) = true ↔
      ∃ c ∈ LumpedCMFGenerator.connections, containsOut c = true ∧ c ∈ genes := by
  rw [List.any_eq_true]
  constructor
  · rintro ⟨c, hc, hmem⟩
    rw [outgoing, List.mem_filter] at hc
    exact ⟨c, hc.1, hc.2, List.elem_iff.mp hmem⟩
  · rintro ⟨c, hc, hout, hmem⟩
    exact ⟨c, List.mem_filter.mpr ⟨hc, hout⟩, List.elem_iff.mpr hmem⟩

/-- After `check_for_connection`, some outlet-marked declared connection
gene is always present. -/
lemma check_has_outlet (genes : List String) :
    ∃ c ∈ LumpedCMFGenerator.connections, containsOut c = true ∧
      c ∈ check_for_connection genes := by
  by_cases hc : (outgoing.any fun connection => genes.contains connection) = true
  · obtain ⟨c, h1, h2, h3⟩ := outlet_cond_iff.mp hc
    exact ⟨c, h1, h2, subset_check_for_connection genes c h3⟩
  · refine ⟨"tr_first_out", by decide, by decide, ?_⟩
    unfold check_for_connection
    rw [if_neg hc]
    exact List.mem_append_right _ (List.mem_singleton.mpr rfl)

/-- Membership transport through a conditional third-layer-style stage of
`create`: the stage keeps every gene and adds at most `g` and `p`. -/
lemma if_stage_mem {c : Prop} [Decidable c] {genes genes' : List String} {g p : String}
    {rolls rolls' : List Bool}
    (h : (if c then roll_append (genes ++ [g]) p rolls else some (genes, rolls)) =
      some (genes', rolls')) :
    (∀ x ∈ genes, x ∈ genes') ∧ (∀ x ∈ genes', x ∈ genes ∨ x = g ∨ x = p) := by
  by_cases hc : c
  · rw [if_pos hc] at h
    obtain ⟨mono, hnew⟩ := roll_append_mem h
    constructor
    · intro x hx; exact mono x (List.mem_append_left _ hx)
    · intro x hx
      rcases hnew x hx with hx | hx
      · rcases List.mem_append.mp hx with hx | hx
        · exact Or.inl hx
        · exact Or.inr (Or.inl (List.mem_singleton.mp hx))
      · exact Or.inr (Or.inr hx)
  · rw [if_neg hc] at h
    simp only [Option.some.injEq, Prod.mk.injEq] at h
    obtain ⟨h1, _⟩ := h
    subst h1
    exact ⟨fun x hx => hx, fun x hx => Or.inl hx⟩

/-- Membership transport through a conditional single-roll stage of
`create`: the stage keeps every gene and adds at most `g`. -/
lemma if_roll_append_mem {c : Prop} [Decidable c] {genes genes' : List String} {g : String}
    {rolls rolls' : List Bool}
    (h : (if c then roll_append genes g rolls else some (genes, rolls)) =
      some (genes', rolls')) :
    (∀ x ∈ genes, x ∈ genes') ∧ (∀ x ∈ genes', x ∈ genes ∨ x = g) := by
  by_cases hc : c
  · rw [if_pos hc] at h; exact roll_append_mem h
  · rw [if_neg hc] at h
    simp only [Option.some.injEq, Prod.mk.injEq] at h
    obtain ⟨h1, _⟩ := h
    subst h1
    exact ⟨fun x hx => hx, fun x hx => Or.inl hx⟩

/-- Layer connectivity of genotypes built by `create`: if the second layer
was chosen, the retry loop has supplied both of its connection genes
(`create`'s own names for them), and if the third layer was chosen, its
river connection was appended unconditionally. -/
lemma create_layer_connections {rolls : List Bool} {genes : List String}
    (h : create rolls = some genes) :
    ("second_layer" ∈ genes → "tr_second_third" ∈ genes ∧ "tr_second_river" ∈ genes)
    ∧ ("third_layer" ∈ genes → "tr_third_river" ∈ genes) := by
  simp only [create, Option.bind_eq_some, Prod.exists, Option.some.injEq] at h
  obtain ⟨g1, r1, h1, g2, r2, h2, g3, r3, h3, g4, r4, h4, g5, r5, h5, g6, r6, h6, g7, r7, h7,
          g8, r8, h8, g9, r9, h9, g10, r10, h10, hfin⟩ := h
  subst hfin
  obtain ⟨mono9, new9⟩ := if_stage_mem h9
  obtain ⟨mono10, new10⟩ := if_roll_append_mem h10
  constructor
  · intro hsl
    by_cases hc : (g7.contains "second_layer") = true
    · rw [if_pos hc] at h8
      obtain ⟨m1, m2, _⟩ := second_layer_trials_post _ _ _ _ _ h8
      exact ⟨mono10 _ (mono9 _ m1), mono10 _ (mono9 _ m2)⟩
    · rw [if_neg hc] at h8
      simp only [Option.some.injEq, Prod.mk.injEq] at h8
      obtain ⟨e8, _⟩ := h8
      subst e8
      exfalso
      rcases new10 _ hsl with hx | hx
      · rcases new9 _ hx with hx | hx | hx
        · exact hc (List.elem_iff.mpr hx)
        · exact absurd hx (by decide)
        · exact absurd hx (by decide)
      · exact absurd hx (by decide)
  · intro htl
    by_cases hc9 : (g8.contains "third_layer") = true
    · rw [if_pos hc9] at h9
      have hm : "tr_third_river" ∈ g9 :=
        (roll_append_mem h9).1 _ (List.mem_append_right _ (List.mem_singleton.mpr rfl))
      exact mono10 _ hm
    · rw [if_neg hc9] at h9
      simp only [Option.some.injEq, Prod.mk.injEq] at h9
      obtain ⟨e9, _⟩ := h9
      subst e9
      exfalso
      rcases new10 _ htl with hx | hx
      · exact hc9 (List.elem_iff.mpr hx)
      · exact absurd hx (by decide)

/-- On a cache whose first matching entry exists, the `get_fitness` scan
succeeds and returns a value stored under a gene set equal to the
candidate's. -/
lemma lookup_cache_hit {cache : List (String × Int)} {genes : List String}
    (h : ∃ kv ∈ cache, sameSet (splitOnSpace kv.1) genes = true) :
    ∃ v, lookup_cache cache genes = some v
      ∧ ∃ kv ∈ cache, sameSet (splitOnSpace kv.1) genes = true ∧ kv.2 = v := by
  induction cache with
  | nil =>
    obtain ⟨kv, hkv, _⟩ := h
    exact absurd hkv (List.not_mem_nil _)
  | cons hd tl ih =>
    obtain ⟨k, v⟩ := hd
    by_cases hc : sameSet (splitOnSpace k) genes = true
    · refine ⟨v, ?_, ⟨(k, v), List.mem_cons_self _ _, hc, rfl⟩⟩
      simp only [lookup_cache, if_pos hc]
    · obtain ⟨kv, hkv, hs⟩ := h
      rcases List.mem_cons.mp hkv with he | htl
      · subst he
        exact absurd hs hc
      · obtain ⟨v', hv', kv2, h2, h3, h4⟩ := ih ⟨kv, htl, hs⟩
        refine ⟨v', ?_, kv2, List.mem_cons_of_mem _ h2, h3, h4⟩
        simp only [lookup_cache, if_neg hc]
        exact hv'

/-- C1 (confirmed): whenever the `models_so_far` cache already holds an
entry whose space-split key has the same gene set as the candidate
genotype, `get_fitness` returns a fitness stored in the cache and does
not invoke the external simulation/calibration collaborators (zero
external calls); in particular, evaluating `["snow", "river"]` on an
empty cache and then `["river", "snow"]` on the resulting cache returns
the same fitness the first call stored, with no external call the second
time. -/
theorem claim_C1_fitness_cache (genes : List String) (models_so_far : List (String × Int))
    (evalModel : List String → Int)
    (h : ∃ kv ∈ models_so_far, sameSet (splitOnSpace kv.1) genes = true) :
    ((get_fitness genes models_so_far evalModel).calls = 0
      ∧ ∃ kv ∈ models_so_far, sameSet (splitOnSpace kv.1) genes = true
          ∧ (get_fitness genes models_so_far evalModel).fitness = kv.2)
    ∧ ((get_fitness ["river", "snow"]
          (get_fitness ["snow", "river"] [] evalModel).cache evalModel).fitness
        = (get_fitness ["snow", "river"] [] evalModel).fitness
      ∧ (get_fitness ["river", "snow"]
          (get_fitness ["snow", "river"] [] evalModel).cache evalModel).calls = 0) := by
  obtain ⟨v, hv, kv, h1, h2, h3⟩ := lookup_cache_hit h
  constructor
  · simp only [get_fitness, hv]
    exact ⟨trivial, kv, h1, h2, h3.symm⟩
  · have e1 : get_fitness ["snow", "river"] [] evalModel =
        ⟨evalModel ["snow", "river"], [("snow river", evalModel ["snow", "river"])], 1⟩ := rfl
    rw [e1]
    have e2 : lookup_cache [("snow river", evalModel ["snow", "river"])] ["river", "snow"] =
        some (evalModel ["snow", "river"]) := by
      simp only [lookup_cache, if_pos (by decide : sameSet (splitOnSpace "snow river") ["river", "snow"] = true)]
    simp [get_fitness, e2]

/-- Witness for C1 at a concrete cache and genotype. -/
theorem claim_C1_fitness_cache_witness :
    ((get_fitness ["river", "snow"] [("snow river", 7)] (fun _ => 0)).calls = 0
      ∧ ∃ kv ∈ [("snow river", (7 : Int))], sameSet (splitOnSpace kv.1) ["river", "snow"] = true
          ∧ (get_fitness ["river", "snow"] [("snow river", 7)] (fun _ => 0)).fitness = kv.2)
    ∧ ((get_fitness ["river", "snow"]
          (get_fitness ["snow", "river"] [] (fun _ => 0)).cache (fun _ => 0)).fitness
        = (get_fitness ["snow", "river"] [] (fun _ => (0 : Int))).fitness
      ∧ (get_fitness ["river", "snow"]
          (get_fitness ["snow", "river"] [] (fun _ => 0)).cache (fun _ => 0)).calls = 0) :=
  claim_C1_fitness_cache ["river", "snow"] [("snow river", 7)] (fun _ => 0)
    ⟨("snow river", 7), by decide, by decide⟩

/-- C2 (code bug): a swap mutation is claimed to replace the gene at the
chosen index of the genotype itself, in place.  The source instead writes
the replacement into a discarded copy, so the genotype passed in is left
unchanged: with genotype `["snow"]`, index 0 and sampled genes
`"canopy"`/`"river"`, the genotype after the swap mutation is still
`["snow"]`, not `["canopy"]`. -/
theorem claim_C2_swap_discards_replacement :
    mutate ["snow"] LumpedCMFGenerator.gene_set
        ⟨MutationType.swap, 1, fun l => l, fun _ l => l, [], "", fun _ => (0, "canopy", "river")⟩
      = some ["snow"]
    ∧ (["snow"] : List String) ≠ ["canopy"] := by
  decide

/-- C3 (code bug): `solve`'s helper `fn_mutate` is claimed to call the
mutation operator with the fixed gene universe as second argument; the
source instead passes the fitness helper `fn_get_fitness` in that
position. -/
theorem claim_C3_fn_mutate_passes_fitness_helper :
    fn_mutate_second_arg ≠ MutateSecondArg.gene_set_arg LumpedCMFGenerator.gene_set := by
  decide

/-- C4 (code bug): the wait loop at the end of `solve` is claimed to spin
while the target has not been exceeded and to exit once the best fitness
exceeds the target.  The source guard `not optimal_fitness >
best.fitness` does the opposite: with target 5 and best fitness 10 (best
exceeds target) the guard still loops, and with best fitness 3 (target
not exceeded) the guard exits at once. -/
theorem claim_C4_wait_guard_inverted :
    solve_wait_guard 5 10 = true ∧ ((10 : Int) > 5)
    ∧ solve_wait_guard 5 3 = false ∧ ¬ ((3 : Int) > 5) := by
  decide

/-- C5 (code bug): the second-layer retry loop of `create` is claimed to
stop as soon as at least one of the two second-layer connection genes is
present.  The source guard `"tr_second_third" not in genes or
"tr_second_river" not in genes` keeps iterating until both are present:
on a genotype already containing `"tr_second_third"` the guard is still
true, and the loop (here with no fuel left) keeps running rather than
returning the genotype. -/
theorem claim_C5_retry_guard_requires_both :
    second_layer_loop_guard ["second_layer", "tr_second_third"] = true
    ∧ "tr_second_third" ∈ (["second_layer", "tr_second_third"] : List String)
    ∧ second_layer_trials 0 ["second_layer", "tr_second_third"] [] = none := by
  decide

/-- C6 (code bug): genotypes returned by `create` are claimed to be
duplicate-free and drawn from the declared gene universe `gene_set`.
Under the outcome stream `rollsA`, `create` returns
`["tr_first_second"]`, a gene that is not in `gene_set` (the catalogue
declares `"tr_first_third"` instead); under `rollsB`, the retry loop
appends `"tr_second_third"` in two successive iterations, so the result
contains a duplicate. -/
theorem claim_C6_create_ill_formed :
    create rollsA = some ["tr_first_second"]
    ∧ "tr_first_second" ∉ LumpedCMFGenerator.gene_set
    ∧ create rollsB = some ["second_layer", "tr_second_third", "tr_second_third", "tr_second_river"]
    ∧ ¬ (["second_layer", "tr_second_third", "tr_second_third", "tr_second_river"] : List String).Nodup := by
  decide

/-- C7 (counterexample): it is claimed that after `create` and the
repair of `check_for_connection`, every present storage gene has a
present outgoing connection gene.  Under the outcome stream `rollsC`,
`create` returns `["river"]`; after repair the genotype is
`["river", "tr_first_out"]`, which contains the storage `"river"` but
none of the connection genes that drain it. -/
theorem claim_C7_counterexample :
    create rollsC = some ["river"]
    ∧ "river" ∈ LumpedCMFGenerator.storages
    ∧ "river" ∈ check_for_connection ["river"]
    ∧ ∀ c ∈ storage_out_connections "river", c ∉ check_for_connection ["river"] := by
  decide

/-- C7 (amended): for every genotype produced by `create`, after the
Structural Validator repair, each present layer storage among
`second_layer` and `third_layer` has at least one present outgoing
connection gene (under the names `create` itself appends), and the
repaired genotype contains at least one declared connection gene whose
name carries the outlet marker.  The storage `river` may be left without
an outgoing connection gene (per the counterexample), and snow and
canopy drain implicitly. -/
theorem claim_C7_amended_layer_connectivity (rolls : List Bool) (genes : List String)
    (h : create rolls = some genes) :
    ("second_layer" ∈ genes →
      ∃ c ∈ storage_out_connections "second_layer", c ∈ check_for_connection genes)
    ∧ ("third_layer" ∈ genes →
      ∃ c ∈ storage_out_connections "third_layer", c ∈ check_for_connection genes)
    ∧ ∃ c ∈ LumpedCMFGenerator.connections, containsOut c = true ∧
        c ∈ check_for_connection genes := by
  obtain ⟨ha, hb⟩ := create_layer_connections h
  refine ⟨fun hs => ?_, fun ht => ?_, check_has_outlet genes⟩
  · obtain ⟨m1, _⟩ := ha hs
    exact ⟨"tr_second_third", by decide, subset_check_for_connection genes _ m1⟩
  · exact ⟨"tr_third_river", by decide, subset_check_for_connection genes _ (hb ht)⟩

/-- Witness for the amended C7 at the concrete outcome stream `rollsB`. -/
theorem claim_C7_amended_layer_connectivity_witness :
    ("second_layer" ∈ (["second_layer", "tr_second_third", "tr_second_third", "tr_second_river"] : List String) →
      ∃ c ∈ storage_out_connections "second_layer",
        c ∈ check_for_connection ["second_layer", "tr_second_third", "tr_second_third", "tr_second_river"])
    ∧ ("third_layer" ∈ (["second_layer", "tr_second_third", "tr_second_third", "tr_second_river"] : List String) →
      ∃ c ∈ storage_out_connections "third_layer",
        c ∈ check_for_connection ["second_layer", "tr_second_third", "tr_second_third", "tr_second_river"])
    ∧ ∃ c ∈ LumpedCMFGenerator.connections, containsOut c = true ∧
        c ∈ check_for_connection ["second_layer", "tr_second_third", "tr_second_third", "tr_second_river"] :=
  claim_C7_amended_layer_connectivity rollsB
    ["second_layer", "tr_second_third", "tr_second_third", "tr_second_river"] (by decide)

/-- C8 (confirmed): `check_for_connection` leaves the genotype unchanged
when some declared connection gene whose name carries the outlet marker
is already present, and otherwise appends exactly the default
first-layer-to-outlet gene `"tr_first_out"`; applying it twice equals
applying it once, and the genotype `["canopy", "lai"]` contains
`"tr_first_out"` after validation. -/
theorem claim_C8_check_for_connection (genes : List String) :
    ((∃ c ∈ LumpedCMFGenerator.connections, containsOut c = true ∧ c ∈ genes) →
      check_for_connection genes = genes)
    ∧ ((¬ ∃ c ∈ LumpedCMFGenerator.connections, containsOut c = true ∧ c ∈ genes) →
      check_for_connection genes = genes ++ ["tr_first_out"])
    ∧ check_for_connection (check_for_connection genes) = check_for_connection genes
    ∧ "tr_first_out" ∈ check_for_connection ["canopy", "lai"] := by
  refine ⟨?_, ?_, ?_, by decide⟩
  · intro hex
    unfold check_for_connection
    rw [if_pos (outlet_cond_iff.mpr hex)]
  · intro hnex
    unfold check_for_connection
    rw [if_neg (fun hc => hnex (outlet_cond_iff.mp hc))]
  · by_cases hc : (outgoing.any fun connection => genes.contains connection) = true
    · have h1 : check_for_connection genes = genes := by
        unfold check_for_connection; rw [if_pos hc]
      rw [h1, h1]
    · have h1 : check_for_connection genes = genes ++ ["tr_first_out"] := by
        unfold check_for_connection; rw [if_neg hc]
      have h2 : (outgoing.any fun connection =>
          (genes ++ ["tr_first_out"]).contains connection) = true := by
        refine outlet_cond_iff.mpr ⟨"tr_first_out", by decide, by decide, ?_⟩
        exact List.mem_append_right _ (List.mem_singleton.mpr rfl)
      rw [h1]
      unfold check_for_connection
      rw [if_pos h2]

/-- Witness for C8 at a concrete genotype with an outlet connection. -/
theorem claim_C8_check_for_connection_witness :
    check_for_connection ["river_out"] = ["river_out"] :=
  (claim_C8_check_for_connection ["river_out"]).1
    ⟨"river_out", by decide, by decide, by decide⟩

/-- C9 (confirmed): for all parents and all in-range split points,
`crossover` returns a genotype without duplicate genes whose every gene
comes from one of the two parents. -/
theorem claim_C9_crossover_subset_nodup (A B : List String) (i j : Nat)
    (hi : i ≤ A.length) (hj : j ≤ B.length) :
    (crossover A B i j).Nodup ∧ ∀ g ∈ crossover A B i j, g ∈ A ∨ g ∈ B := by
  constructor
  · exact List.nodup_dedup _
  · intro g hg
    simp only [crossover] at hg
    rcases List.mem_append.mp (List.mem_dedup.mp hg) with hx | hx
    · exact Or.inl (List.take_subset _ _ hx)
    · exact Or.inr (List.drop_subset _ _ hx)

/-- Witness for C9 at concrete parents and split points. -/
theorem claim_C9_crossover_subset_nodup_witness :
    (crossover ["snow", "river"] ["canopy", "river"] 1 0).Nodup
    ∧ ∀ g ∈ crossover ["snow", "river"] ["canopy", "river"] 1 0,
        g ∈ (["snow", "river"] : List String) ∨ g ∈ (["canopy", "river"] : List String) :=
  claim_C9_crossover_subset_nodup ["snow", "river"] ["canopy", "river"] 1 0
    (by decide) (by decide)

/-- C10 (confirmed): when the add kind is selected on a duplicate-free
genotype whose gene set already equals the whole gene universe, `mutate`
removes one gene instead of adding, so the resulting genotype is no
longer than the universe; and when the delete kind is selected on an
empty genotype, `mutate` adds one random gene instead of deleting, so
the result is non-empty. -/
theorem claim_C10_add_full_del_empty (genes gene_set : List String) (r : MutateRand)
    (hreps : 1 ≤ r.reps) (hnd : genes.Nodup) (hfull : sameSet genes gene_set = true)
    (hshuf : ∀ l, (r.shuffle l).Perm l) :
    (r.mutation_type = MutationType.add →
      ∃ genes2, mutate genes gene_set r = some genes2 ∧ genes2.length ≤ gene_set.length)
    ∧ (r.mutation_type = MutationType.del →
      ∀ genes3, mutate [] gene_set r = some genes3 → genes3 ≠ []) := by
  obtain ⟨n, hn⟩ : ∃ n, r.reps = n + 1 := ⟨r.reps - 1, by omega⟩
  constructor
  · intro hty
    rw [mutate, hty, hn, mutate_add, if_pos hfull]
    refine ⟨(r.shuffle genes).dropLast, rfl, ?_⟩
    have hlen : (r.shuffle genes).length = genes.length := (hshuf genes).length_eq
    have hsub : genes ⊆ gene_set := fun x hx => (sameSet_subsets hfull).1 x hx
    have hle : genes.length ≤ gene_set.length :=
      (List.subperm_of_subset hnd hsub).length_le
    calc (r.shuffle genes).dropLast.length
        = (r.shuffle genes).length - 1 := by rw [List.length_dropLast]
      _ ≤ gene_set.length := by omega
  · intro hty genes3 h3
    simp only [mutate, hty, hn, mutate_del, List.length_nil, List.nil_append, if_true,
      Option.some.injEq] at h3
    subst h3
    simp

/-- Witness for C10: a full one-gene genotype for the add kind and the
empty genotype for the delete kind, with the identity shuffle. -/
theorem claim_C10_add_full_del_empty_witness :
    ((⟨MutationType.add, 1, fun l => l, fun _ l => l, [], "meltrate", fun _ => (0, "", "")⟩ : MutateRand).mutation_type = MutationType.add →
      ∃ genes2, mutate ["snow"] ["snow"]
          ⟨MutationType.add, 1, fun l => l, fun _ l => l, [], "meltrate", fun _ => (0, "", "")⟩ = some genes2
        ∧ genes2.length ≤ (["snow"] : List String).length)
    ∧ ((⟨MutationType.add, 1, fun l => l, fun _ l => l, [], "meltrate", fun _ => (0, "", "")⟩ : MutateRand).mutation_type = MutationType.del →
      ∀ genes3, mutate [] ["snow"]
          ⟨MutationType.add, 1, fun l => l, fun _ l => l, [], "meltrate", fun _ => (0, "", "")⟩ = some genes3
        → genes3 ≠ []) :=
  claim_C10_add_full_del_empty ["snow"] ["snow"]
    ⟨MutationType.add, 1, fun l => l, fun _ l => l, [], "meltrate", fun _ => (0, "", "")⟩
    (by decide) (by decide) (by decide) (fun l => List.Perm.refl l)
